import Mathlib

/-!
Verification of the NBP MCP server's request-validate-format pipeline
(src/nbp.py) against its natural-language specification.

The Python module is shallowly embedded: Python values flowing through the
formatters become the inductive type `PyVal`; operations that can raise at
runtime (attribute access on a non-dict, indexing a non-sequence, iterating
a non-iterable, `.upper()` on a non-string) return `Except String α`, where
the error string names the Python exception class raised.  The single
outbound HTTP request made by `make_nbp_request` is modelled by a fetch
oracle `String → Option PyVal` mapping the request URL to the decoded JSON
body; `Option.none` is the absent-result sentinel that `make_nbp_request`
produces when the underlying `httpx` call raises (network error, timeout,
non-2xx after `raise_for_status`, or a JSON decode failure), since its
`try/except Exception: return None` collapses every such failure.
-/

namespace NBP

/-- Embedding of the Python values the pipeline manipulates: `None`,
booleans, integers, strings, lists and (string-keyed) dicts, the shapes
produced by decoding the NBP API's JSON. -/
inductive PyVal where
  | none : PyVal
  | bool : Bool → PyVal
  | int : Int → PyVal
  | str : String → PyVal
  | list : List PyVal → PyVal
  | dict : List (String × PyVal) → PyVal

/-- Python truthiness (`bool(v)`): `None`, `False`, `0`, `""`, `[]` and
an empty dict are falsy, everything else is truthy. -/
def pyTruthy : PyVal → Bool
  | PyVal.none => false
  | PyVal.bool b => b
  | PyVal.int n => n != 0
  | PyVal.str s => s != ""
  | PyVal.list xs => !xs.isEmpty
  | PyVal.dict d => !d.isEmpty

mutual

/-- Python `repr(v)`, used by `str` on containers.  String quoting and
escaping are simplified to surrounding quotes; no claim depends on the
exact repr of a nested container. -/
def pyRepr : PyVal → String
  | PyVal.none => "None"
  | PyVal.bool true => "True"
  | PyVal.bool false => "False"
  | PyVal.int n => toString n
  | PyVal.str s => "\x27" ++ s ++ "\x27"
  | PyVal.list xs => "[" ++ String.intercalate ", " (pyReprList xs) ++ "]"
  | PyVal.dict d => "\x7b" ++ String.intercalate ", " (pyReprDict d) ++ "\x7d"

/-- Helper for `pyRepr` on list elements. -/
def pyReprList : List PyVal → List String
  | [] => []
  | x :: xs => pyRepr x :: pyReprList xs

/-- Helper for `pyRepr` on dict entries. -/
def pyReprDict : List (String × PyVal) → List String
  | [] => []
  | kv :: xs => ("\x27" ++ kv.1 ++ "\x27: " ++ pyRepr kv.2) :: pyReprDict xs

end

/-- Python `str(v)` as used by f-string interpolation (`f"... {v} ..."`). -/
def pyStr : PyVal → String
  | PyVal.str s => s
  | v => pyRepr v

/-- Python `v.get(key, default)`: dict lookup with default; on any
non-dict value the attribute access raises `AttributeError`. -/
def pyGet (v : PyVal) (key : String) (dflt : PyVal) : Except String PyVal :=
  match v with
  | PyVal.dict d => Except.ok ((List.lookup key d).getD dflt)
  | _ => Except.error "AttributeError"

/-- Python `v[key]` for a string key: dict subscription (raising
`KeyError` when the key is absent); subscribing any other value with a
string raises `TypeError`. -/
def pySubscript (v : PyVal) (key : String) : Except String PyVal :=
  match v with
  | PyVal.dict d =>
    match List.lookup key d with
    | Option.some x => Except.ok x
    | Option.none => Except.error "KeyError"
  | _ => Except.error "TypeError"

/-- Prefix test on character lists, used for the substring test below. -/
def charListHasPrefix : List Char → List Char → Bool
  | [], _ => true
  | _ :: _, [] => false
  | a :: xs, b :: ys => a == b && charListHasPrefix xs ys

/-- Substring (contiguous) test on character lists. -/
def charListHasInfix (needle : List Char) : List Char → Bool
  | [] => needle.isEmpty
  | c :: t => charListHasPrefix needle (c :: t) || charListHasInfix needle t

/-- Python `key in v` for a string key: key membership for dicts, element
membership for lists, substring test for strings; `in` on the remaining
values raises `TypeError`. -/
def pyContains (key : String) (v : PyVal) : Except String Bool :=
  match v with
  | PyVal.dict d => Except.ok (d.any (fun kv => kv.1 == key))
  | PyVal.list xs =>
    Except.ok (xs.any (fun x =>
      match x with
      | PyVal.str s => s == key
      | _ => false))
  | PyVal.str s => Except.ok (charListHasInfix key.toList s.toList)
  | _ => Except.error "TypeError"

/-- Python `v[i]` for a natural index: list/str indexing (raising
`IndexError` out of range); indexing any other value raises `TypeError`. -/
def pyIndex (v : PyVal) (i : Nat) : Except String PyVal :=
  match v with
  | PyVal.list xs =>
    match xs.get? i with
    | Option.some x => Except.ok x
    | Option.none => Except.error "IndexError"
  | PyVal.str s =>
    match s.toList.get? i with
    | Option.some c => Except.ok (PyVal.str (String.mk [c]))
    | Option.none => Except.error "IndexError"
  | _ => Except.error "TypeError"

/-- Python `for x in v`: the sequence of values a `for` loop visits —
list elements, string characters, dict keys; iterating any other value
raises `TypeError`. -/
def pyIter : PyVal → Except String (List PyVal)
  | PyVal.list xs => Except.ok xs
  | PyVal.str s => Except.ok (s.toList.map (fun c => PyVal.str (String.mk [c])))
  | PyVal.dict d => Except.ok (d.map (fun kv => PyVal.str kv.1))
  | _ => Except.error "TypeError"

/-- Python `len(v)` for sequences and dicts; `len` of the remaining
values raises `TypeError`. -/
def pyLen : PyVal → Except String Nat
  | PyVal.list xs => Except.ok xs.length
  | PyVal.str s => Except.ok s.length
  | PyVal.dict d => Except.ok d.length
  | _ => Except.error "TypeError"

/-- Python `str.upper()` modelled per character (the currency codes and
table letters the pipeline uppercases are ASCII). -/
def pyStrUpper (s : String) : String := String.mk (s.data.map Char.toUpper)

/-- Python `str.lower()` modelled per character. -/
def pyStrLower (s : String) : String := String.mk (s.data.map Char.toLower)

/-- Python `v.upper()`: defined on strings, raises `AttributeError`
otherwise. -/
def pyUpper : PyVal → Except String String
  | PyVal.str s => Except.ok (pyStrUpper s)
  | _ => Except.error "AttributeError"

/-- Effectful map over a list, mirroring a Python `for` loop that appends
one formatted entry per element and stops at the first raised exception. -/
def mapME (f : PyVal → Except String String) : List PyVal → Except String (List String)
  | [] => Except.ok []
  | x :: xs => do
    let y ← f x
    let ys ← mapME f xs
    pure (y :: ys)

/-- Base URL of the NBP API (`NBP_API_BASE`). -/
def NBP_API_BASE : String := "https://api.nbp.pl/api"

/-- Match of `DATE_PATTERN = re.compile(r"^\d\x7b4\x7d-\d\x7b2\x7d-\d\x7b2\x7d$")`
against a whole string, with Python `re` semantics: `$` also matches just
before a single trailing newline.  `\d` is modelled as a decimal digit. -/
def datePatternMatch (s : String) : Bool :=
  match s.toList with
  | [a, b, c, d, h1, e, f, h2, g, k] =>
    a.isDigit && b.isDigit && c.isDigit && d.isDigit && (h1 == '-') &&
    e.isDigit && f.isDigit && (h2 == '-') && g.isDigit && k.isDigit
  | [a, b, c, d, h1, e, f, h2, g, k, nl] =>
    (nl == '\n') && a.isDigit && b.isDigit && c.isDigit && d.isDigit && (h1 == '-') &&
    e.isDigit && f.isDigit && (h2 == '-') && g.isDigit && k.isDigit
  | _ => false

/-- The invalid-date message produced by `validate_date`. -/
def invalid_date_message (date : String) : String :=
  "Invalid date format: \x27" ++ date ++ "\x27. Expected YYYY-MM-DD (e.g., 2024-01-15)"

/-- `validate_date`: `None` when the date is empty or matches the pattern,
otherwise the descriptive error message. -/
def validate_date (date : String) : Option String :=
  if date == "" then Option.none
  else if !datePatternMatch date then Option.some (invalid_date_message date)
  else Option.none

/-- `make_nbp_request`, relative to a fetch oracle giving the decoded JSON
body per URL; `Option.none` is the absent-result sentinel the Python
function returns when the HTTP call or JSON decoding raises. -/
def make_nbp_request (fetch : String → Option PyVal) (url : String) : Option PyVal :=
  fetch url

/-- The fixed invalid-table message shared by the four table-taking tools. -/
def invalid_table_message : String :=
  "Invalid table type. Use \x27a\x27, \x27b\x27, or \x27c\x27."

/-- The fixed count-range message shared by the two last-N tools. -/
def count_range_message : String := "Count must be between 1 and 255."

/-- `format_rate`: render one rate dict; `Country`/`Symbol`/`Mid`/`Bid`/`Ask`
lines appear only when the corresponding key is present.  Note the
`Mid Rate`/`Bid Rate`/`Ask Rate` lines here carry no " PLN" suffix. -/
def format_rate (rate : PyVal) : Except String String := do
  let currencyV ← pyGet rate "currency" (PyVal.str "Unknown")
  let codeV ← pyGet rate "code" (PyVal.str "Unknown")
  let parts := ["Currency: " ++ pyStr currencyV, "Code: " ++ pyStr codeV]
  let hasCountry ← pyContains "country" rate
  let parts ← if hasCountry then do
      let v ← pySubscript rate "country"
      pure (parts ++ ["Country: " ++ pyStr v])
    else pure parts
  let hasSymbol ← pyContains "symbol" rate
  let parts ← if hasSymbol then do
      let v ← pySubscript rate "symbol"
      pure (parts ++ ["Symbol: " ++ pyStr v])
    else pure parts
  let hasMid ← pyContains "mid" rate
  let parts ← if hasMid then do
      let v ← pySubscript rate "mid"
      pure (parts ++ ["Mid Rate: " ++ pyStr v])
    else pure parts
  let hasBid ← pyContains "bid" rate
  let parts ← if hasBid then do
      let v ← pySubscript rate "bid"
      pure (parts ++ ["Bid Rate: " ++ pyStr v])
    else pure parts
  let hasAsk ← pyContains "ask" rate
  let parts ← if hasAsk then do
      let v ← pySubscript rate "ask"
      pure (parts ++ ["Ask Rate: " ++ pyStr v])
    else pure parts
  pure (String.intercalate "\n" parts)

/-- `format_exchange_table`: header lines, a "Rates:" separator, then one
`format_rate` block per embedded rate, each preceded by a blank line. -/
def format_exchange_table (table : PyVal) : Except String String := do
  let tableV ← pyGet table "table" (PyVal.str "Unknown")
  let noV ← pyGet table "no" (PyVal.str "Unknown")
  let result := ["Table: " ++ pyStr tableV, "Number: " ++ pyStr noV]
  let hasTrading ← pyContains "tradingDate" table
  let result ← if hasTrading then do
      let v ← pySubscript table "tradingDate"
      pure (result ++ ["Trading Date: " ++ pyStr v])
    else pure result
  let effV ← pyGet table "effectiveDate" (PyVal.str "Unknown")
  let result := result ++ ["Effective Date: " ++ pyStr effV, "\nRates:"]
  let ratesV ← pyGet table "rates" (PyVal.list [])
  let ratesList ← pyIter ratesV
  let blocks ← mapME (fun r => do
      let s ← format_rate r
      pure ("\n" ++ s)) ratesList
  pure (String.intercalate "\n" (result ++ blocks))

/-- `format_gold_price`: "Date: D" and "Price: P PLN/g". -/
def format_gold_price (gold : PyVal) : Except String String := do
  let dataV ← pyGet gold "data" (PyVal.str "Unknown")
  let cenaV ← pyGet gold "cena" (PyVal.str "Unknown")
  pure ("Date: " ++ pyStr dataV ++ "\nPrice: " ++ pyStr cenaV ++ " PLN/g")

/-- Body of the per-record loop shared verbatim by
`get_currency_rate_history` and `get_currency_rate_last_n`: one
pipe-joined line per rate record, optional fields omitted when absent,
`Mid`/`Bid`/`Ask` suffixed " PLN". -/
def format_history_entry (rate : PyVal) : Except String String := do
  let effV ← pyGet rate "effectiveDate" (PyVal.str "Unknown")
  let entry := ["Date: " ++ pyStr effV]
  let hasTrading ← pyContains "tradingDate" rate
  let entry ← if hasTrading then do
      let v ← pySubscript rate "tradingDate"
      pure (entry ++ ["Trading Date: " ++ pyStr v])
    else pure entry
  let hasMid ← pyContains "mid" rate
  let entry ← if hasMid then do
      let v ← pySubscript rate "mid"
      pure (entry ++ ["Mid Rate: " ++ pyStr v ++ " PLN"])
    else pure entry
  let hasBid ← pyContains "bid" rate
  let entry ← if hasBid then do
      let v ← pySubscript rate "bid"
      pure (entry ++ ["Bid Rate: " ++ pyStr v ++ " PLN"])
    else pure entry
  let hasAsk ← pyContains "ask" rate
  let entry ← if hasAsk then do
      let v ← pySubscript rate "ask"
      pure (entry ++ ["Ask Rate: " ++ pyStr v ++ " PLN"])
    else pure entry
  pure (String.intercalate " | " entry)

/-- `get_currency_rate`: current or dated single rate for one currency. -/
def get_currency_rate (fetch : String → Option PyVal) (code : String)
    (date : String := "") (table : String := "a") : Except String String :=
  let code := pyStrUpper code
  let table := pyStrLower table
  if !(table == "a" || table == "b" || table == "c") then
    Except.ok invalid_table_message
  else
    match validate_date date with
    | Option.some dateError => Except.ok dateError
    | Option.none =>
      let url := if date != "" then
          NBP_API_BASE ++ "/exchangerates/rates/" ++ table ++ "/" ++ code ++ "/" ++ date ++ "/"
        else
          NBP_API_BASE ++ "/exchangerates/rates/" ++ table ++ "/" ++ code ++ "/"
      let unable : String := if date != "" then
          "Unable to fetch exchange rate for " ++ code ++ " on " ++ date ++
            ". The date may be a weekend, holiday, or outside the available data range."
        else
          "Unable to fetch current exchange rate for " ++ code ++ " from table " ++
            pyStrUpper table ++ "."
      match make_nbp_request fetch url with
      | Option.none => Except.ok unable
      | Option.some d =>
        if !pyTruthy d then Except.ok unable
        else do
          let rates ← pyGet d "rates" (PyVal.list [])
          if !pyTruthy rates then
            pure ("No exchange rate data available for " ++ code ++ ".")
          else do
            let rate_data ← pyIndex rates 0
            let currencyV ← pyGet d "currency" (PyVal.str "Unknown")
            let codeV ← pyGet d "code" (PyVal.str "Unknown")
            let tableV ← pyGet d "table" (PyVal.str "Unknown")
            let tableUpper ← pyUpper tableV
            let noV ← pyGet rate_data "no" (PyVal.str "Unknown")
            let effV ← pyGet rate_data "effectiveDate" (PyVal.str "Unknown")
            let result := [
              "Currency: " ++ pyStr currencyV,
              "Code: " ++ pyStr codeV,
              "Table: " ++ tableUpper,
              "Number: " ++ pyStr noV,
              "Effective Date: " ++ pyStr effV]
            let hasTrading ← pyContains "tradingDate" rate_data
            let result ← if hasTrading then do
                let v ← pySubscript rate_data "tradingDate"
                pure (result ++ ["Trading Date: " ++ pyStr v])
              else pure result
            let hasMid ← pyContains "mid" rate_data
            let result ← if hasMid then do
                let v ← pySubscript rate_data "mid"
                pure (result ++ ["Mid Rate: " ++ pyStr v ++ " PLN"])
              else pure result
            let hasBid ← pyContains "bid" rate_data
            let result ← if hasBid then do
                let v ← pySubscript rate_data "bid"
                pure (result ++ ["Bid Rate: " ++ pyStr v ++ " PLN"])
              else pure result
            let hasAsk ← pyContains "ask" rate_data
            let result ← if hasAsk then do
                let v ← pySubscript rate_data "ask"
                pure (result ++ ["Ask Rate: " ++ pyStr v ++ " PLN"])
              else pure result
            pure (String.intercalate "\n" result)

/-- `get_exchange_table`: current or dated exchange-rate table.  Only a
non-empty JSON list passes the `not data or not isinstance(data, list) or
len(data) == 0` guard; its first element is formatted. -/
def get_exchange_table (fetch : String → Option PyVal)
    (date : String := "") (table : String := "a") : Except String String :=
  let table := pyStrLower table
  if !(table == "a" || table == "b" || table == "c") then
    Except.ok invalid_table_message
  else
    match validate_date date with
    | Option.some dateError => Except.ok dateError
    | Option.none =>
      let url := if date != "" then
          NBP_API_BASE ++ "/exchangerates/tables/" ++ table ++ "/" ++ date ++ "/"
        else
          NBP_API_BASE ++ "/exchangerates/tables/" ++ table ++ "/"
      match make_nbp_request fetch url with
      | Option.some (PyVal.list (t :: _)) => format_exchange_table t
      | _ =>
        if date != "" then
          Except.ok ("Unable to fetch exchange rate table " ++ pyStrUpper table ++ " for " ++
            date ++ ". The date may be a weekend, holiday, or outside the available data range.")
        else
          Except.ok ("Unable to fetch current exchange rate table " ++ pyStrUpper table ++ ".")

/-- `get_currency_rate_history`: rates for one currency over a date range.
The two date parameters are interpolated into the URL without any
`validate_date` check. -/
def get_currency_rate_history (fetch : String → Option PyVal) (code : String)
    (start_date : String) (end_date : String) (table : String := "a") :
    Except String String :=
  let code := pyStrUpper code
  let table := pyStrLower table
  if !(table == "a" || table == "b" || table == "c") then
    Except.ok invalid_table_message
  else
    let url := NBP_API_BASE ++ "/exchangerates/rates/" ++ table ++ "/" ++ code ++ "/" ++
      start_date ++ "/" ++ end_date ++ "/"
    let unable : String := "Unable to fetch historical data for " ++ code ++ " from " ++
      start_date ++ " to " ++ end_date ++ "."
    match make_nbp_request fetch url with
    | Option.none => Except.ok unable
    | Option.some d =>
      if !pyTruthy d then Except.ok unable
      else do
        let rates ← pyGet d "rates" (PyVal.list [])
        if !pyTruthy rates then
          pure ("No historical data available for " ++ code ++ " in the specified date range.")
        else do
          let currencyV ← pyGet d "currency" (PyVal.str "Unknown")
          let codeV ← pyGet d "code" (PyVal.str "Unknown")
          let tableV ← pyGet d "table" (PyVal.str "Unknown")
          let tableUpper ← pyUpper tableV
          let n ← pyLen rates
          let result := [
            "Currency: " ++ pyStr currencyV,
            "Code: " ++ pyStr codeV,
            "Table: " ++ tableUpper,
            "\nHistorical Rates (" ++ toString n ++ " entries):\n"]
          let ratesList ← pyIter rates
          let entries ← mapME format_history_entry ratesList
          pure (String.intercalate "\n" (result ++ entries))

/-- `get_currency_rate_last_n`: last N rates for one currency. -/
def get_currency_rate_last_n (fetch : String → Option PyVal) (code : String)
    (count : Int) (table : String := "a") : Except String String :=
  let code := pyStrUpper code
  let table := pyStrLower table
  if !(table == "a" || table == "b" || table == "c") then
    Except.ok invalid_table_message
  else if count < 1 || count > 255 then
    Except.ok count_range_message
  else
    let url := NBP_API_BASE ++ "/exchangerates/rates/" ++ table ++ "/" ++ code ++
      "/last/" ++ toString count ++ "/"
    let unable : String := "Unable to fetch last " ++ toString count ++ " rates for " ++
      code ++ "."
    match make_nbp_request fetch url with
    | Option.none => Except.ok unable
    | Option.some d =>
      if !pyTruthy d then Except.ok unable
      else do
        let rates ← pyGet d "rates" (PyVal.list [])
        if !pyTruthy rates then
          pure ("No rate data available for " ++ code ++ ".")
        else do
          let currencyV ← pyGet d "currency" (PyVal.str "Unknown")
          let codeV ← pyGet d "code" (PyVal.str "Unknown")
          let tableV ← pyGet d "table" (PyVal.str "Unknown")
          let tableUpper ← pyUpper tableV
          let n ← pyLen rates
          let result := [
            "Currency: " ++ pyStr currencyV,
            "Code: " ++ pyStr codeV,
            "Table: " ++ tableUpper,
            "\nLast " ++ toString n ++ " Rates:\n"]
          let ratesList ← pyIter rates
          let entries ← mapME format_history_entry ratesList
          pure (String.intercalate "\n" (result ++ entries))

/-- `get_gold_price`: current or dated gold price.  Only a non-empty JSON
list passes the guard; its first element is formatted. -/
def get_gold_price (fetch : String → Option PyVal) (date : String := "") :
    Except String String :=
  match validate_date date with
  | Option.some dateError => Except.ok dateError
  | Option.none =>
    let url := if date != "" then
        NBP_API_BASE ++ "/cenyzlota/" ++ date ++ "/"
      else
        NBP_API_BASE ++ "/cenyzlota/"
    match make_nbp_request fetch url with
    | Option.some (PyVal.list (g :: _)) => format_gold_price g
    | _ =>
      if date != "" then
        Except.ok ("Unable to fetch gold price for " ++ date ++
          ". The date may be a weekend, holiday, or outside the available data range (data available from 2013-01-02).")
      else
        Except.ok "Unable to fetch current gold price."

/-- `get_gold_price_history`: gold prices over a date range.  The two date
parameters are interpolated into the URL without any `validate_date`
check.  `None` or a non-list is "unable to fetch"; an empty list is the
distinct "no data" message. -/
def get_gold_price_history (fetch : String → Option PyVal)
    (start_date : String) (end_date : String) : Except String String :=
  let url := NBP_API_BASE ++ "/cenyzlota/" ++ start_date ++ "/" ++ end_date ++ "/"
  let unable : String := "Unable to fetch gold price history from " ++ start_date ++
    " to " ++ end_date ++ "."
  match make_nbp_request fetch url with
  | Option.none => Except.ok unable
  | Option.some (PyVal.list golds) =>
    if golds.isEmpty then
      Except.ok "No gold price data available for the specified date range."
    else do
      let entries ← mapME format_gold_price golds
      pure (String.intercalate "\n"
        (("Gold Price History (" ++ toString golds.length ++ " entries):\n") :: entries))
  | Option.some _ => Except.ok unable

/-- `get_gold_price_last_n`: last N gold prices. -/
def get_gold_price_last_n (fetch : String → Option PyVal) (count : Int) :
    Except String String :=
  if count < 1 || count > 255 then
    Except.ok count_range_message
  else
    let url := NBP_API_BASE ++ "/cenyzlota/last/" ++ toString count ++ "/"
    let unable : String := "Unable to fetch last " ++ toString count ++ " gold prices."
    match make_nbp_request fetch url with
    | Option.none => Except.ok unable
    | Option.some (PyVal.list golds) =>
      if golds.isEmpty then
        Except.ok "No gold price data available."
      else do
        let entries ← mapME format_gold_price golds
        pure (String.intercalate "\n"
          (("Last " ++ toString golds.length ++ " Gold Prices:\n") :: entries))
    | Option.some _ => Except.ok unable

/-- Success test for an embedded tool call: `true` exactly when the call
returned a string rather than raising. -/
def isOkB : Except String String → Bool
  | Except.ok _ => true
  | Except.error _ => false

/-- Substring containment on strings, used to state that a message
contains a queried identifier. -/
def strContains (s sub : String) : Prop := sub.data <:+: s.data

/-- Test for a Python dict among the embedded values. -/
def isDictVal : PyVal → Bool
  | PyVal.dict _ => true
  | _ => false

/-- Shape of a response from the single-rate-container endpoints that the
rate tools consume without raising: a falsy value, or a dict whose
`table` entry (when present) is a string and whose `rates` entry (when
present) is a list of dicts or falsy. -/
def wellShapedRateResp : PyVal → Bool
  | PyVal.dict d =>
    (match List.lookup "table" d with
     | Option.none => true
     | Option.some (PyVal.str _) => true
     | Option.some _ => false) &&
    (match List.lookup "rates" d with
     | Option.none => true
     | Option.some (PyVal.list rs) => rs.all isDictVal
     | Option.some v => !pyTruthy v)
  | v => !pyTruthy v

/-- Shape of one exchange-table record: a dict whose `rates` entry (when
present) is a list of dicts. -/
def wellShapedTableElem : PyVal → Bool
  | PyVal.dict d =>
    match List.lookup "rates" d with
    | Option.none => true
    | Option.some (PyVal.list rs) => rs.all isDictVal
    | Option.some _ => false
  | _ => false

/-- Shape of a response from the tables endpoint that `get_exchange_table`
consumes without raising: any non-list is caught by the `isinstance`
guard, and a list must hold well-shaped table records. -/
def wellShapedTableResp : PyVal → Bool
  | PyVal.list ts => ts.all wellShapedTableElem
  | _ => true

/-- Shape of a response from the gold-price endpoints that the gold tools
consume without raising: any non-list is caught by the guards, and a list
must hold dicts. -/
def wellShapedGoldResp : PyVal → Bool
  | PyVal.list gs => gs.all isDictVal
  | _ => true

/-- One optional dict entry: the singleton association list when the value
is present, empty otherwise.  Used to quantify over rate records with and
without each optional field. -/
def optEntry (key : String) : Option PyVal → List (String × PyVal)
  | Option.none => []
  | Option.some v => [(key, v)]

/-- One optional rendered line, mirroring `optEntry` on the output side. -/
def optLine (label : String) : Option PyVal → List String
  | Option.none => []
  | Option.some v => [label ++ pyStr v]

/-! ### Helper lemmas -/

@[simp] lemma except_bind_ok {α β : Type} (a : α) (f : α → Except String β) :
    (Except.ok a >>= f : Except String β) = f a := rfl

@[simp] lemma except_bind_error {α β : Type} (e : String) (f : α → Except String β) :
    (Except.error e >>= f : Except String β) = Except.error e := rfl

@[simp] lemma except_pure_eq {α : Type} (a : α) :
    (pure a : Except String α) = Except.ok a := rfl

@[simp] lemma isOkB_ok (s : String) : isOkB (Except.ok s) = true := rfl

@[simp] lemma isOkB_error (e : String) : isOkB (Except.error e) = false := rfl

lemma isOkB_iff (e : Except String String) : isOkB e = true ↔ ∃ s, e = Except.ok s := by
  cases e with
  | ok s => simp [isOkB]
  | error e => simp [isOkB]

lemma any_key_eq_lookup_isSome (d : List (String × PyVal)) (k : String) :
    (d.any (fun kv => kv.1 == k)) = (List.lookup k d).isSome := by
  induction d with
  | nil => rfl
  | cons kv t ih =>
    by_cases h : kv.1 = k
    · simp [List.lookup, h]
    · have h1 : (kv.1 == k) = false := by simp [h]
      have h2 : (k == kv.1) = false := by simp [Ne.symm h]
      simp [List.lookup, h1, h2, ih]

lemma pySubscript_of_lookup (d : List (String × PyVal)) (k : String) (v : PyVal)
    (h : List.lookup k d = Option.some v) :
    pySubscript (PyVal.dict d) k = Except.ok v := by
  simp [pySubscript, h]

lemma mapME_ok_of_forall (f : PyVal → Except String String) (l : List PyVal)
    (h : ∀ x ∈ l, isOkB (f x) = true) : ∃ ss, mapME f l = Except.ok ss := by
  induction l with
  | nil => exact ⟨[], rfl⟩
  | cons x t ih =>
    obtain ⟨y, hy⟩ := (isOkB_iff _).mp (h x (by simp))
    obtain ⟨ss, hss⟩ := ih (fun z hz => h z (by simp [hz]))
    exact ⟨y :: ss, by simp [mapME, hy, hss]⟩

lemma mapME_newline (l : List PyVal) (ss : List String)
    (h : mapME format_rate l = Except.ok ss) :
    mapME (fun r => format_rate r >>= fun s => Except.ok ("\n" ++ s)) l =
      Except.ok (ss.map (fun s => "\n" ++ s)) := by
  induction l generalizing ss with
  | nil =>
    simp [mapME] at h
    subst h
    rfl
  | cons x t ih =>
    cases hfx : format_rate x with
    | error e => rw [mapME, hfx] at h; simp at h
    | ok y =>
      cases hmt : mapME format_rate t with
      | error e => rw [mapME, hfx, hmt] at h; simp at h
      | ok ys =>
        rw [mapME, hfx, hmt] at h
        simp at h
        subst h
        simp [mapME, hfx, ih ys hmt]

lemma string_data_append (a b : String) : (a ++ b).data = a.data ++ b.data := by
  cases a; cases b; rfl

lemma string_head_ne (s t : String) (a b : Char) (hs : s.data.head? = Option.some a)
    (ht : t.data.head? = Option.some b) (hab : a ≠ b) : s ≠ t := by
  intro he; rw [he, ht] at hs; exact hab (Option.some.inj hs).symm

lemma strContains_of_data (s mid : String) (pre post : List Char)
    (h : s.data = pre ++ mid.data ++ post) : strContains s mid := ⟨pre, post, h.symm⟩

lemma string_append_assoc (a b c : String) : (a ++ b) ++ c = a ++ (b ++ c) := by
  cases a; cases b; cases c
  apply congrArg String.mk
  exact List.append_assoc _ _ _

lemma strContains_refl (s : String) : strContains s s := ⟨[], [], by simp⟩

lemma strContains_left (s t sub : String) (h : strContains s sub) :
    strContains (s ++ t) sub := by
  obtain ⟨p, q, hpq⟩ := h
  exact ⟨p, q ++ t.data, by rw [string_data_append, ← hpq]; simp⟩

lemma strContains_right (s t sub : String) (h : strContains t sub) :
    strContains (s ++ t) sub := by
  obtain ⟨p, q, hpq⟩ := h
  exact ⟨s.data ++ p, q, by rw [string_data_append, ← hpq]; simp⟩

lemma isDict_exists (x : PyVal) (h : isDictVal x = true) : ∃ d, x = PyVal.dict d := by
  cases x <;> first | exact ⟨_, rfl⟩ | simp [isDictVal] at h

lemma wellShapedRate_truthy_dict (v : PyVal) (hw : wellShapedRateResp v = true)
    (ht : pyTruthy v = true) : ∃ d, v = PyVal.dict d := by
  cases v <;> simp_all [wellShapedRateResp, pyTruthy]

lemma format_rate_dict_isOk (d : List (String × PyVal)) :
    isOkB (format_rate (PyVal.dict d)) = true := by
  cases h1 : List.lookup "country" d <;> cases h2 : List.lookup "symbol" d <;>
    cases h3 : List.lookup "mid" d <;> cases h4 : List.lookup "bid" d <;>
    cases h5 : List.lookup "ask" d <;>
    simp [format_rate, pyGet, pyContains, pySubscript, any_key_eq_lookup_isSome,
      h1, h2, h3, h4, h5]

lemma format_history_entry_dict_isOk (d : List (String × PyVal)) :
    isOkB (format_history_entry (PyVal.dict d)) = true := by
  cases h1 : List.lookup "tradingDate" d <;> cases h2 : List.lookup "mid" d <;>
    cases h3 : List.lookup "bid" d <;> cases h4 : List.lookup "ask" d <;>
    simp [format_history_entry, pyGet, pyContains, pySubscript, any_key_eq_lookup_isSome,
      h1, h2, h3, h4]

lemma format_gold_price_dict_isOk (d : List (String × PyVal)) :
    isOkB (format_gold_price (PyVal.dict d)) = true := by
  simp [format_gold_price, pyGet]

lemma format_rate_isOk_of_isDict (x : PyVal) (h : isDictVal x = true) :
    isOkB (format_rate x) = true := by
  obtain ⟨d, rfl⟩ := isDict_exists x h
  exact format_rate_dict_isOk d

lemma format_history_entry_isOk_of_isDict (x : PyVal) (h : isDictVal x = true) :
    isOkB (format_history_entry x) = true := by
  obtain ⟨d, rfl⟩ := isDict_exists x h
  exact format_history_entry_dict_isOk d

lemma format_gold_price_isOk_of_isDict (x : PyVal) (h : isDictVal x = true) :
    isOkB (format_gold_price x) = true := by
  obtain ⟨d, rfl⟩ := isDict_exists x h
  exact format_gold_price_dict_isOk d

lemma format_rate_newline_isOk (x : PyVal) (h : isDictVal x = true) :
    isOkB (format_rate x >>= fun s => Except.ok ("\n" ++ s)) = true := by
  obtain ⟨y, hy⟩ := (isOkB_iff _).mp (format_rate_isOk_of_isDict x h)
  simp [hy]

lemma format_exchange_table_isOk (t : PyVal) (h : wellShapedTableElem t = true) :
    isOkB (format_exchange_table t) = true := by
  obtain ⟨d, rfl⟩ := isDict_exists t (by cases t <;> simp_all [wellShapedTableElem, isDictVal])
  rw [wellShapedTableElem] at h
  cases hr : List.lookup "rates" d with
  | none =>
    obtain ⟨ss, hss⟩ := mapME_ok_of_forall
      (fun r => format_rate r >>= fun s => Except.ok ("\n" ++ s)) []
      (fun x hx => by simp at hx)
    cases ht : List.lookup "tradingDate" d <;>
      simp [format_exchange_table, pyGet, pyContains, pySubscript, pyIter,
        any_key_eq_lookup_isSome, hr, ht, hss]
  | some rv =>
    rw [hr] at h
    cases rv with
    | list rs =>
      obtain ⟨ss, hss⟩ := mapME_ok_of_forall
        (fun r => format_rate r >>= fun s => Except.ok ("\n" ++ s)) rs
        (fun x hx => format_rate_newline_isOk x (by
          exact List.all_eq_true.mp h x hx))
      cases ht : List.lookup "tradingDate" d <;>
        simp [format_exchange_table, pyGet, pyContains, pySubscript, pyIter,
          any_key_eq_lookup_isSome, hr, ht, hss]
    | none => simp at h
    | bool b => simp at h
    | int n => simp at h
    | str s => simp at h
    | dict dd => simp at h

set_option maxHeartbeats 2000000 in
lemma get_currency_rate_isOk (resp : Option PyVal)
    (h : resp.all wellShapedRateResp = true) (code date table : String) :
    isOkB (get_currency_rate (fun _ => resp) code date table) = true := by
  unfold get_currency_rate
  cases htab : (pyStrLower table == "a" || pyStrLower table == "b" || pyStrLower table == "c")
  · simp [htab]
  · cases hvd : validate_date date with
    | some e => simp [htab, hvd]
    | none =>
      cases resp with
      | none => simp [htab, hvd, make_nbp_request]
      | some v =>
        simp only [Option.all_some] at h
        cases hpt : pyTruthy v
        · simp [htab, hvd, make_nbp_request, hpt]
        · obtain ⟨d, rfl⟩ := wellShapedRate_truthy_dict v h hpt
          simp only [wellShapedRateResp, Bool.and_eq_true] at h
          obtain ⟨htbl, hrts⟩ := h
          cases hr : List.lookup "rates" d with
          | none =>
            simp [htab, hvd, make_nbp_request, hpt, pyGet, hr, pyTruthy]
            split <;> rfl
          | some rv =>
            rw [hr] at hrts
            cases rv with
            | list rs =>
              cases rs with
              | nil =>
                simp [htab, hvd, make_nbp_request, hpt, pyGet, hr, pyTruthy]
                split <;> rfl
              | cons r rs2 =>
                simp only [List.all_cons, Bool.and_eq_true] at hrts
                obtain ⟨hrd, _⟩ := hrts
                obtain ⟨rd, rfl⟩ := isDict_exists r hrd
                have htv : ∃ w, (List.lookup "table" d).getD (PyVal.str "Unknown") = PyVal.str w := by
                  cases h6 : List.lookup "table" d with
                  | none => exact ⟨"Unknown", rfl⟩
                  | some tv =>
                    rw [h6] at htbl
                    cases tv <;> simp_all
                obtain ⟨w, hw⟩ := htv
                have hde : d.isEmpty = false := by simpa [pyTruthy] using hpt
                cases h7 : List.lookup "tradingDate" rd <;>
                  cases h8 : List.lookup "mid" rd <;>
                  cases h9 : List.lookup "bid" rd <;>
                  cases h10 : List.lookup "ask" rd <;>
                  simp [htab, hvd, make_nbp_request, hde, pyGet, pyIndex, pyContains,
                    pySubscript, pyUpper, pyTruthy, hr, hw, h7, h8, h9, h10,
                    any_key_eq_lookup_isSome]
            | none =>
              have hde : d.isEmpty = false := by simpa [pyTruthy] using hpt
              simp [htab, hvd, make_nbp_request, hde, pyGet, hr, pyTruthy]
            | bool b =>
              have hb : b = false := by simpa [pyTruthy] using hrts
              subst hb
              have hde : d.isEmpty = false := by simpa [pyTruthy] using hpt
              simp [htab, hvd, make_nbp_request, hde, pyGet, hr, pyTruthy]
            | int n =>
              have hn : n = 0 := by simpa [pyTruthy] using hrts
              subst hn
              have hde : d.isEmpty = false := by simpa [pyTruthy] using hpt
              simp [htab, hvd, make_nbp_request, hde, pyGet, hr, pyTruthy]
            | str s =>
              have hs : s = "" := by simpa [pyTruthy] using hrts
              subst hs
              have hde : d.isEmpty = false := by simpa [pyTruthy] using hpt
              simp [htab, hvd, make_nbp_request, hde, pyGet, hr, pyTruthy]
            | dict dd =>
              have hdd : dd = [] := by simpa [pyTruthy] using hrts
              subst hdd
              have hde : d.isEmpty = false := by simpa [pyTruthy] using hpt
              simp [htab, hvd, make_nbp_request, hde, pyGet, hr, pyTruthy]

set_option maxHeartbeats 1000000 in
lemma get_currency_rate_history_isOk (resp : Option PyVal)
    (h : resp.all wellShapedRateResp = true) (code start_date end_date table : String) :
    isOkB (get_currency_rate_history (fun _ => resp) code start_date end_date table) = true := by
  unfold get_currency_rate_history
  cases htab : (pyStrLower table == "a" || pyStrLower table == "b" || pyStrLower table == "c")
  · simp [htab]
  · cases resp with
    | none => simp [htab, make_nbp_request]
    | some v =>
      simp only [Option.all_some] at h
      cases hpt : pyTruthy v
      · simp [htab, make_nbp_request, hpt]
      · obtain ⟨d, rfl⟩ := wellShapedRate_truthy_dict v h hpt
        simp only [wellShapedRateResp, Bool.and_eq_true] at h
        obtain ⟨htbl, hrts⟩ := h
        have hde : d.isEmpty = false := by simpa [pyTruthy] using hpt
        cases hr : List.lookup "rates" d with
        | none => simp [htab, make_nbp_request, hde, pyGet, hr, pyTruthy]
        | some rv =>
          rw [hr] at hrts
          cases rv with
          | list rs =>
            cases rs with
            | nil => simp [htab, make_nbp_request, hde, pyGet, hr, pyTruthy]
            | cons r rs2 =>
              have htv : ∃ w, (List.lookup "table" d).getD (PyVal.str "Unknown") =
                  PyVal.str w := by
                cases h6 : List.lookup "table" d with
                | none => exact ⟨"Unknown", rfl⟩
                | some tv => rw [h6] at htbl; cases tv <;> simp_all
              obtain ⟨w, hw⟩ := htv
              obtain ⟨ss, hss⟩ := mapME_ok_of_forall format_history_entry (r :: rs2)
                (fun x hx => format_history_entry_isOk_of_isDict x
                  (List.all_eq_true.mp hrts x hx))
              simp [htab, make_nbp_request, hde, pyGet, pyIter, pyLen, pyUpper, pyTruthy,
                hr, hw, hss]
          | none =>
            simp [htab, make_nbp_request, hde, pyGet, hr, pyTruthy]
          | bool b =>
            have hb : b = false := by simpa [pyTruthy] using hrts
            subst hb
            simp [htab, make_nbp_request, hde, pyGet, hr, pyTruthy]
          | int n =>
            have hn : n = 0 := by simpa [pyTruthy] using hrts
            subst hn
            simp [htab, make_nbp_request, hde, pyGet, hr, pyTruthy]
          | str s =>
            have hs : s = "" := by simpa [pyTruthy] using hrts
            subst hs
            simp [htab, make_nbp_request, hde, pyGet, hr, pyTruthy]
          | dict dd =>
            have hdd : dd = [] := by simpa [pyTruthy] using hrts
            subst hdd
            simp [htab, make_nbp_request, hde, pyGet, hr, pyTruthy]

set_option maxHeartbeats 1000000 in
lemma get_currency_rate_last_n_isOk (resp : Option PyVal)
    (h : resp.all wellShapedRateResp = true) (code : String) (count : Int) (table : String) :
    isOkB (get_currency_rate_last_n (fun _ => resp) code count table) = true := by
  unfold get_currency_rate_last_n
  cases htab : (pyStrLower table == "a" || pyStrLower table == "b" || pyStrLower table == "c")
  · simp [htab]
  · cases hcnt : (decide (count < 1) || decide (count > 255))
    on_goal 2 => simp [htab, hcnt]
    cases resp with
    | none => simp [htab, hcnt, make_nbp_request]
    | some v =>
      simp only [Option.all_some] at h
      cases hpt : pyTruthy v
      · simp [htab, hcnt, make_nbp_request, hpt]
      · obtain ⟨d, rfl⟩ := wellShapedRate_truthy_dict v h hpt
        simp only [wellShapedRateResp, Bool.and_eq_true] at h
        obtain ⟨htbl, hrts⟩ := h
        have hde : d.isEmpty = false := by simpa [pyTruthy] using hpt
        cases hr : List.lookup "rates" d with
        | none => simp [htab, hcnt, make_nbp_request, hde, pyGet, hr, pyTruthy]
        | some rv =>
          rw [hr] at hrts
          cases rv with
          | list rs =>
            cases rs with
            | nil => simp [htab, hcnt, make_nbp_request, hde, pyGet, hr, pyTruthy]
            | cons r rs2 =>
              have htv : ∃ w, (List.lookup "table" d).getD (PyVal.str "Unknown") =
                  PyVal.str w := by
                cases h6 : List.lookup "table" d with
                | none => exact ⟨"Unknown", rfl⟩
                | some tv => rw [h6] at htbl; cases tv <;> simp_all
              obtain ⟨w, hw⟩ := htv
              obtain ⟨ss, hss⟩ := mapME_ok_of_forall format_history_entry (r :: rs2)
                (fun x hx => format_history_entry_isOk_of_isDict x
                  (List.all_eq_true.mp hrts x hx))
              simp [htab, hcnt, make_nbp_request, hde, pyGet, pyIter, pyLen, pyUpper, pyTruthy,
                hr, hw, hss]
          | none =>
            simp [htab, hcnt, make_nbp_request, hde, pyGet, hr, pyTruthy]
          | bool b =>
            have hb : b = false := by simpa [pyTruthy] using hrts
            subst hb
            simp [htab, hcnt, make_nbp_request, hde, pyGet, hr, pyTruthy]
          | int n =>
            have hn : n = 0 := by simpa [pyTruthy] using hrts
            subst hn
            simp [htab, hcnt, make_nbp_request, hde, pyGet, hr, pyTruthy]
          | str s =>
            have hs : s = "" := by simpa [pyTruthy] using hrts
            subst hs
            simp [htab, hcnt, make_nbp_request, hde, pyGet, hr, pyTruthy]
          | dict dd =>
            have hdd : dd = [] := by simpa [pyTruthy] using hrts
            subst hdd
            simp [htab, hcnt, make_nbp_request, hde, pyGet, hr, pyTruthy]

lemma get_exchange_table_isOk_lemma (resp : Option PyVal)
    (h : resp.all wellShapedTableResp = true) (date table : String) :
    isOkB (get_exchange_table (fun _ => resp) date table) = true := by
  unfold get_exchange_table
  cases htab : (pyStrLower table == "a" || pyStrLower table == "b" || pyStrLower table == "c")
  · simp [htab]
  · cases hvd : validate_date date with
    | some e => simp [htab, hvd]
    | none =>
      cases resp with
      | none => simp [htab, hvd, make_nbp_request]; split <;> rfl
      | some v =>
        simp only [Option.all_some] at h
        cases v with
        | list ts =>
          cases ts with
          | nil => simp [htab, hvd, make_nbp_request]; split <;> rfl
          | cons t ts2 =>
            simp only [wellShapedTableResp, List.all_cons, Bool.and_eq_true] at h
            have hfmt := format_exchange_table_isOk t h.1
            simp [htab, hvd, make_nbp_request]
            exact hfmt
        | none => simp [htab, hvd, make_nbp_request]; split <;> rfl
        | bool b => simp [htab, hvd, make_nbp_request]; split <;> rfl
        | int n => simp [htab, hvd, make_nbp_request]; split <;> rfl
        | str s => simp [htab, hvd, make_nbp_request]; split <;> rfl
        | dict dd => simp [htab, hvd, make_nbp_request]; split <;> rfl

lemma get_gold_price_isOk (resp : Option PyVal)
    (h : resp.all wellShapedGoldResp = true) (date : String) :
    isOkB (get_gold_price (fun _ => resp) date) = true := by
  unfold get_gold_price
  cases hvd : validate_date date with
  | some e => simp [hvd]
  | none =>
    cases resp with
    | none => simp [hvd, make_nbp_request]; split <;> rfl
    | some v =>
      simp only [Option.all_some] at h
      cases v with
      | list gs =>
        cases gs with
        | nil => simp [hvd, make_nbp_request]; split <;> rfl
        | cons g gs2 =>
          simp only [wellShapedGoldResp, List.all_cons, Bool.and_eq_true] at h
          have hfmt := format_gold_price_isOk_of_isDict g h.1
          simp [hvd, make_nbp_request]
          exact hfmt
      | none => simp [hvd, make_nbp_request]; split <;> rfl
      | bool b => simp [hvd, make_nbp_request]; split <;> rfl
      | int n => simp [hvd, make_nbp_request]; split <;> rfl
      | str s => simp [hvd, make_nbp_request]; split <;> rfl
      | dict dd => simp [hvd, make_nbp_request]; split <;> rfl

lemma get_gold_price_history_isOk (resp : Option PyVal)
    (h : resp.all wellShapedGoldResp = true) (start_date end_date : String) :
    isOkB (get_gold_price_history (fun _ => resp) start_date end_date) = true := by
  unfold get_gold_price_history
  cases resp with
  | none => simp [make_nbp_request]
  | some v =>
    simp only [Option.all_some] at h
    cases v with
    | list gs =>
      cases hgs : gs.isEmpty with
      | true => simp [make_nbp_request, hgs]
      | false =>
        obtain ⟨ss, hss⟩ := mapME_ok_of_forall format_gold_price gs
          (fun x hx => format_gold_price_isOk_of_isDict x (List.all_eq_true.mp h x hx))
        simp [make_nbp_request, hgs, hss]
    | none => simp [make_nbp_request]
    | bool b => simp [make_nbp_request]
    | int n => simp [make_nbp_request]
    | str s => simp [make_nbp_request]
    | dict dd => simp [make_nbp_request]

lemma get_gold_price_last_n_isOk (resp : Option PyVal)
    (h : resp.all wellShapedGoldResp = true) (count : Int) :
    isOkB (get_gold_price_last_n (fun _ => resp) count) = true := by
  unfold get_gold_price_last_n
  cases hcnt : (decide (count < 1) || decide (count > 255))
  on_goal 2 => simp [hcnt]
  cases resp with
  | none => simp [hcnt, make_nbp_request]
  | some v =>
    simp only [Option.all_some] at h
    cases v with
    | list gs =>
      cases hgs : gs.isEmpty with
      | true => simp [hcnt, make_nbp_request, hgs]
      | false =>
        obtain ⟨ss, hss⟩ := mapME_ok_of_forall format_gold_price gs
          (fun x hx => format_gold_price_isOk_of_isDict x (List.all_eq_true.mp h x hx))
        simp [hcnt, make_nbp_request, hgs, hss]
    | none => simp [hcnt, make_nbp_request]
    | bool b => simp [hcnt, make_nbp_request]
    | int n => simp [hcnt, make_nbp_request]
    | str s => simp [hcnt, make_nbp_request]
    | dict dd => simp [hcnt, make_nbp_request]

/-! ### Claim theorems -/

/-- C6: for every table-type input whose lowercase form is outside the set
a, b, c, each of the four currency-rate operations (`get_currency_rate`,
`get_exchange_table`, `get_currency_rate_history`,
`get_currency_rate_last_n`) returns the fixed invalid-table message; the
result is the same for every fetch oracle, so no network call is made. -/
theorem claim_C6_invalid_table_rejected (fetch : String → Option PyVal)
    (code date start_date end_date table : String) (count : Int)
    (htab : (pyStrLower table == "a" || pyStrLower table == "b" || pyStrLower table == "c") = false) :
    get_currency_rate fetch code date table = Except.ok invalid_table_message ∧
    get_exchange_table fetch date table = Except.ok invalid_table_message ∧
    get_currency_rate_history fetch code start_date end_date table = Except.ok invalid_table_message ∧
    get_currency_rate_last_n fetch code count table = Except.ok invalid_table_message := by
  refine ⟨?_, ?_, ?_, ?_⟩ <;>
    simp [get_currency_rate, get_exchange_table, get_currency_rate_history,
      get_currency_rate_last_n, htab]

/-- Witness for C6: table type "d" is rejected by all four operations. -/
theorem claim_C6_witness :
    get_currency_rate (fun _ => Option.none) "USD" "" "d" = Except.ok invalid_table_message ∧
    get_exchange_table (fun _ => Option.none) "" "d" = Except.ok invalid_table_message ∧
    get_currency_rate_history (fun _ => Option.none) "USD" "2024-01-01" "2024-01-31" "d" =
      Except.ok invalid_table_message ∧
    get_currency_rate_last_n (fun _ => Option.none) "USD" 5 "d" = Except.ok invalid_table_message :=
  claim_C6_invalid_table_rejected (fun _ => Option.none) "USD" "" "2024-01-01" "2024-01-31" "d" 5
    (by decide)

/-- C7: for every integer count outside the inclusive range 1..255, both
last-N operations return the fixed count-range message (given a valid
table type for the currency variant); the result is the same for every
fetch oracle, so no network call is made. -/
theorem claim_C7_count_range (fetch : String → Option PyVal) (code table : String) (count : Int)
    (htab : (pyStrLower table == "a" || pyStrLower table == "b" || pyStrLower table == "c") = true)
    (hcount : count < 1 ∨ count > 255) :
    get_currency_rate_last_n fetch code count table = Except.ok count_range_message ∧
    get_gold_price_last_n fetch count = Except.ok count_range_message := by
  have hc : (decide (count < 1) || decide (count > 255)) = true := by
    rcases hcount with h | h <;> simp [h]
  refine ⟨?_, ?_⟩ <;> simp [get_currency_rate_last_n, get_gold_price_last_n, htab, hc]

/-- Witness for C7: count 0 is rejected by both last-N operations. -/
theorem claim_C7_witness :
    get_currency_rate_last_n (fun _ => Option.none) "USD" 0 "a" = Except.ok count_range_message ∧
    get_gold_price_last_n (fun _ => Option.none) 0 = Except.ok count_range_message :=
  claim_C7_count_range (fun _ => Option.none) "USD" "a" 0 (by decide) (by decide)

/-- C10: when both the table type and the date are invalid,
`get_currency_rate` and `get_exchange_table` return the invalid-table
message: the table check runs first and decides the returned text. -/
theorem claim_C10_table_checked_before_date (fetch : String → Option PyVal)
    (code date table : String)
    (htab : (pyStrLower table == "a" || pyStrLower table == "b" || pyStrLower table == "c") = false)
    (hdate : (date == "") = false ∧ datePatternMatch date = false) :
    get_currency_rate fetch code date table = Except.ok invalid_table_message ∧
    get_exchange_table fetch date table = Except.ok invalid_table_message := by
  refine ⟨?_, ?_⟩ <;> simp [get_currency_rate, get_exchange_table, htab]

/-- Witness for C10: invalid table "x" together with invalid date
"2024/01/15" yields the invalid-table message. -/
theorem claim_C10_witness :
    get_currency_rate (fun _ => Option.none) "USD" "2024/01/15" "x" =
      Except.ok invalid_table_message ∧
    get_exchange_table (fun _ => Option.none) "2024/01/15" "x" =
      Except.ok invalid_table_message :=
  claim_C10_table_checked_before_date (fun _ => Option.none) "USD" "2024/01/15" "x"
    (by decide) (by decide)

/-- C8: currency-code handling is case-insensitive: two codes with the
same uppercasing produce identical output from the three code-taking
currency-rate operations, for every fixed upstream response. -/
theorem claim_C8_code_case_insensitive (resp : Option PyVal)
    (date start_date end_date table : String) (count : Int) (code1 code2 : String)
    (h : pyStrUpper code1 = pyStrUpper code2) :
    get_currency_rate (fun _ => resp) code1 date table =
      get_currency_rate (fun _ => resp) code2 date table ∧
    get_currency_rate_history (fun _ => resp) code1 start_date end_date table =
      get_currency_rate_history (fun _ => resp) code2 start_date end_date table ∧
    get_currency_rate_last_n (fun _ => resp) code1 count table =
      get_currency_rate_last_n (fun _ => resp) code2 count table := by
  refine ⟨?_, ?_, ?_⟩ <;>
    simp only [get_currency_rate, get_currency_rate_history, get_currency_rate_last_n, h]

/-- Witness for C8: "usd" and "UsD" yield identical output on a fixed
response. -/
theorem claim_C8_witness :
    get_currency_rate (fun _ => Option.none) "usd" "" "a" =
      get_currency_rate (fun _ => Option.none) "UsD" "" "a" ∧
    get_currency_rate_history (fun _ => Option.none) "usd" "2024-01-01" "2024-01-31" "a" =
      get_currency_rate_history (fun _ => Option.none) "UsD" "2024-01-01" "2024-01-31" "a" ∧
    get_currency_rate_last_n (fun _ => Option.none) "usd" 5 "a" =
      get_currency_rate_last_n (fun _ => Option.none) "UsD" 5 "a" :=
  claim_C8_code_case_insensitive Option.none "" "2024-01-01" "2024-01-31" "a" 5 "usd" "UsD"
    (by decide)

/-- C1 counterexample: an unexpectedly-shaped but successfully decoded
JSON body is not collapsed to the absent-result sentinel, and
`get_currency_rate` then raises `AttributeError` (`data.get` on a
non-dict) instead of returning explanatory text: fetch outcome `7`, a
bare JSON number, is truthy and reaches `data.get("rates", [])`. -/
theorem claim_C1_counterexample :
    get_currency_rate (fun _ => Option.some (PyVal.int 7)) "USD" "" "a" =
      Except.error "AttributeError" ∧
    isOkB (get_currency_rate (fun _ => Option.some (PyVal.int 7)) "USD" "" "a") = false :=
  ⟨rfl, rfl⟩

/-- C1 as amended: every tool operation returns a string (never raises)
for every caller parameter combination and every fetch outcome that is
either the absent-result sentinel — into which `make_nbp_request`
collapses all fetch failures — or a decoded JSON value of the endpoint's
documented shape (for the rate endpoints: falsy, or a dict whose table
entry is a string and whose rates entry is a list of dicts or falsy; for
the table endpoint: any non-list, or a list of table records with
list-of-dict rates; for the gold endpoints: any non-list, or a list of
dicts).  A successfully decoded response of an unexpected shape can
instead make a tool raise, as the counterexample shows. -/
theorem claim_C1_amended_no_raise (respRate respTable respGold : Option PyVal)
    (code date table start_date end_date : String) (count : Int)
    (hr : respRate.all wellShapedRateResp = true)
    (ht : respTable.all wellShapedTableResp = true)
    (hg : respGold.all wellShapedGoldResp = true) :
    isOkB (get_currency_rate (fun _ => respRate) code date table) = true ∧
    isOkB (get_currency_rate_history (fun _ => respRate) code start_date end_date table) = true ∧
    isOkB (get_currency_rate_last_n (fun _ => respRate) code count table) = true ∧
    isOkB (get_exchange_table (fun _ => respTable) date table) = true ∧
    isOkB (get_gold_price (fun _ => respGold) date) = true ∧
    isOkB (get_gold_price_history (fun _ => respGold) start_date end_date) = true ∧
    isOkB (get_gold_price_last_n (fun _ => respGold) count) = true :=
  ⟨get_currency_rate_isOk respRate hr code date table,
   get_currency_rate_history_isOk respRate hr code start_date end_date table,
   get_currency_rate_last_n_isOk respRate hr code count table,
   get_exchange_table_isOk_lemma respTable ht date table,
   get_gold_price_isOk respGold hg date,
   get_gold_price_history_isOk respGold hg start_date end_date,
   get_gold_price_last_n_isOk respGold hg count⟩

/-- Witness for C1 (amended) on representative well-shaped responses. -/
theorem claim_C1_witness :
    isOkB (get_currency_rate
      (fun _ => Option.some (PyVal.dict [("table", PyVal.str "a"), ("currency", PyVal.str "dolar"),
        ("code", PyVal.str "USD"), ("rates", PyVal.list [PyVal.dict [("no", PyVal.str "11/A"),
          ("effectiveDate", PyVal.str "2024-01-15"), ("mid", PyVal.int 4)]])]))
      "usd" "2024-01-15" "a") = true ∧
    isOkB (get_currency_rate_history
      (fun _ => Option.some (PyVal.dict [("table", PyVal.str "a"), ("currency", PyVal.str "dolar"),
        ("code", PyVal.str "USD"), ("rates", PyVal.list [PyVal.dict [("no", PyVal.str "11/A"),
          ("effectiveDate", PyVal.str "2024-01-15"), ("mid", PyVal.int 4)]])]))
      "usd" "2024-01-01" "2024-01-31" "a") = true ∧
    isOkB (get_currency_rate_last_n
      (fun _ => Option.some (PyVal.dict [("table", PyVal.str "a"), ("currency", PyVal.str "dolar"),
        ("code", PyVal.str "USD"), ("rates", PyVal.list [PyVal.dict [("no", PyVal.str "11/A"),
          ("effectiveDate", PyVal.str "2024-01-15"), ("mid", PyVal.int 4)]])]))
      "usd" 5 "a") = true ∧
    isOkB (get_exchange_table
      (fun _ => Option.some (PyVal.list [PyVal.dict [("table", PyVal.str "A"),
        ("no", PyVal.str "1/A"), ("effectiveDate", PyVal.str "2024-01-02"),
        ("rates", PyVal.list [PyVal.dict [("currency", PyVal.str "euro"),
          ("code", PyVal.str "EUR"), ("mid", PyVal.int 4)]])]]))
      "2024-01-15" "a") = true ∧
    isOkB (get_gold_price
      (fun _ => Option.some (PyVal.list [PyVal.dict [("data", PyVal.str "2024-01-02"),
        ("cena", PyVal.int 245)]]))
      "2024-01-15") = true ∧
    isOkB (get_gold_price_history
      (fun _ => Option.some (PyVal.list [PyVal.dict [("data", PyVal.str "2024-01-02"),
        ("cena", PyVal.int 245)]]))
      "2024-01-01" "2024-01-31") = true ∧
    isOkB (get_gold_price_last_n
      (fun _ => Option.some (PyVal.list [PyVal.dict [("data", PyVal.str "2024-01-02"),
        ("cena", PyVal.int 245)]]))
      5) = true :=
  claim_C1_amended_no_raise
    (Option.some (PyVal.dict [("table", PyVal.str "a"), ("currency", PyVal.str "dolar"),
      ("code", PyVal.str "USD"), ("rates", PyVal.list [PyVal.dict [("no", PyVal.str "11/A"),
        ("effectiveDate", PyVal.str "2024-01-15"), ("mid", PyVal.int 4)]])]))
    (Option.some (PyVal.list [PyVal.dict [("table", PyVal.str "A"),
      ("no", PyVal.str "1/A"), ("effectiveDate", PyVal.str "2024-01-02"),
      ("rates", PyVal.list [PyVal.dict [("currency", PyVal.str "euro"),
        ("code", PyVal.str "EUR"), ("mid", PyVal.int 4)]])]]))
    (Option.some (PyVal.list [PyVal.dict [("data", PyVal.str "2024-01-02"),
      ("cena", PyVal.int 245)]]))
    "usd" "2024-01-15" "a" "2024-01-01" "2024-01-31" 5 (by decide) (by decide) (by decide)

/-- C2 counterexample: `get_currency_rate_history` performs no date
validation.  At the malformed start date "01-15-2024" it does not return
the invalid-date text: with an absent fetch result it returns its
unable-to-fetch sentence, and with a data-returning fetch it formats the
data — so the result depends on the network call.  `get_gold_price_history`
behaves the same way. -/
theorem claim_C2_counterexample :
    get_currency_rate_history (fun _ => Option.none) "USD" "01-15-2024" "2024-01-20" "a" =
      Except.ok "Unable to fetch historical data for USD from 01-15-2024 to 2024-01-20." ∧
    ("Unable to fetch historical data for USD from 01-15-2024 to 2024-01-20." ≠
      invalid_date_message "01-15-2024") ∧
    get_gold_price_history (fun _ => Option.none) "01-15-2024" "2024-01-20" =
      Except.ok "Unable to fetch gold price history from 01-15-2024 to 2024-01-20." ∧
    ("Unable to fetch gold price history from 01-15-2024 to 2024-01-20." ≠
      invalid_date_message "01-15-2024") ∧
    get_gold_price_history
        (fun _ => Option.some (PyVal.list [PyVal.dict [("data", PyVal.str "2024-01-16"), ("cena", PyVal.int 240)]]))
        "01-15-2024" "2024-01-20" =
      Except.ok "Gold Price History (1 entries):\n\nDate: 2024-01-16\nPrice: 240 PLN/g" :=
  ⟨rfl, by decide, rfl, by decide, rfl⟩

/-- C2 as amended: the date-taking operations that do validate
(`get_currency_rate`, `get_exchange_table`, `get_gold_price`) return the
descriptive invalid-date text for every non-empty date string that fails
the pattern, for every fetch oracle (hence before any network call); the
two history operations pass their date parameters through unvalidated. -/
theorem claim_C2_amended (fetch : String → Option PyVal) (code date table : String)
    (hd : (date == "") = false) (hm : datePatternMatch date = false)
    (htab : (pyStrLower table == "a" || pyStrLower table == "b" || pyStrLower table == "c") = true) :
    get_currency_rate fetch code date table = Except.ok (invalid_date_message date) ∧
    get_exchange_table fetch date table = Except.ok (invalid_date_message date) ∧
    get_gold_price fetch date = Except.ok (invalid_date_message date) := by
  refine ⟨?_, ?_, ?_⟩ <;>
    simp [get_currency_rate, get_exchange_table, get_gold_price, validate_date, hd, hm, htab]

/-- Witness for C2 (amended) at the malformed date "2024/01/15". -/
theorem claim_C2_witness :
    get_currency_rate (fun _ => Option.none) "USD" "2024/01/15" "a" =
      Except.ok (invalid_date_message "2024/01/15") ∧
    get_exchange_table (fun _ => Option.none) "2024/01/15" "a" =
      Except.ok (invalid_date_message "2024/01/15") ∧
    get_gold_price (fun _ => Option.none) "2024/01/15" =
      Except.ok (invalid_date_message "2024/01/15") :=
  claim_C2_amended (fun _ => Option.none) "USD" "2024/01/15" "a" (by decide) (by decide) (by decide)

/-- C3 counterexample: an empty-list result is not given a distinct
"no data available" sentence by `get_exchange_table` or `get_gold_price`:
both return exactly the sentence they return for an absent fetch result. -/
theorem claim_C3_counterexample :
    get_exchange_table (fun _ => Option.some (PyVal.list [])) "" "a" =
      Except.ok "Unable to fetch current exchange rate table A." ∧
    get_exchange_table (fun _ => Option.none) "" "a" =
      Except.ok "Unable to fetch current exchange rate table A." ∧
    get_gold_price (fun _ => Option.some (PyVal.list [])) "" =
      Except.ok "Unable to fetch current gold price." ∧
    get_gold_price (fun _ => Option.none) "" =
      Except.ok "Unable to fetch current gold price." :=
  ⟨rfl, rfl, rfl, rfl⟩

/-- C3 as amended: the empty-collection "no data available" sentences are
produced, distinct from the absent-result "unable to fetch" sentences, by
`get_currency_rate`, the two history tools and the two last-N tools;
`get_exchange_table` and `get_gold_price`, however, collapse an empty
list into their absent-result sentence (see the counterexample). -/
theorem claim_C3_amended_no_data_distinct (code start_date end_date : String) (count : Int)
    (hcount : (decide (count < 1) || decide (count > 255)) = false) :
    (get_currency_rate (fun _ => Option.some (PyVal.dict [("rates", PyVal.list [])]))
        code "" "a" =
      Except.ok ("No exchange rate data available for " ++ pyStrUpper code ++ ".")) ∧
    ("No exchange rate data available for " ++ pyStrUpper code ++ "." ≠
      "Unable to fetch current exchange rate for " ++ pyStrUpper code ++ " from table A.") ∧
    (get_currency_rate_history (fun _ => Option.some (PyVal.dict [("rates", PyVal.list [])]))
        code start_date end_date "a" =
      Except.ok ("No historical data available for " ++ pyStrUpper code ++
        " in the specified date range.")) ∧
    ("No historical data available for " ++ pyStrUpper code ++ " in the specified date range." ≠
      "Unable to fetch historical data for " ++ pyStrUpper code ++ " from " ++ start_date ++
        " to " ++ end_date ++ ".") ∧
    (get_currency_rate_last_n (fun _ => Option.some (PyVal.dict [("rates", PyVal.list [])]))
        code count "a" =
      Except.ok ("No rate data available for " ++ pyStrUpper code ++ ".")) ∧
    ("No rate data available for " ++ pyStrUpper code ++ "." ≠
      "Unable to fetch last " ++ toString count ++ " rates for " ++ pyStrUpper code ++ ".") ∧
    (get_gold_price_history (fun _ => Option.some (PyVal.list [])) start_date end_date =
      Except.ok "No gold price data available for the specified date range.") ∧
    ("No gold price data available for the specified date range." ≠
      "Unable to fetch gold price history from " ++ start_date ++ " to " ++ end_date ++ ".") ∧
    (get_gold_price_last_n (fun _ => Option.some (PyVal.list [])) count =
      Except.ok "No gold price data available.") ∧
    ("No gold price data available." ≠
      "Unable to fetch last " ++ toString count ++ " gold prices.") := by
  have ha : (pyStrLower "a" == "a" || pyStrLower "a" == "b" || pyStrLower "a" == "c") = true := by
    decide
  refine ⟨?_, ?_, ?_, ?_, ?_, ?_, ?_, ?_, ?_, ?_⟩
  · simp [get_currency_rate, validate_date, make_nbp_request, pyTruthy, pyGet, List.lookup, ha]
  · exact string_head_ne _ _ 'N' 'U' (by simp only [string_data_append]; rfl)
      (by simp only [string_data_append]; rfl) (by decide)
  · simp [get_currency_rate_history, make_nbp_request, pyTruthy, pyGet, List.lookup, ha]
  · exact string_head_ne _ _ 'N' 'U' (by simp only [string_data_append]; rfl)
      (by simp only [string_data_append]; rfl) (by decide)
  · simp [get_currency_rate_last_n, make_nbp_request, pyTruthy, pyGet, List.lookup, ha, hcount]
  · exact string_head_ne _ _ 'N' 'U' (by simp only [string_data_append]; rfl)
      (by simp only [string_data_append]; rfl) (by decide)
  · simp [get_gold_price_history, make_nbp_request]
  · exact string_head_ne _ _ 'N' 'U' (by simp only [string_data_append]; rfl)
      (by simp only [string_data_append]; rfl) (by decide)
  · simp [get_gold_price_last_n, make_nbp_request, hcount]
  · exact string_head_ne _ _ 'N' 'U' (by simp only [string_data_append]; rfl)
      (by simp only [string_data_append]; rfl) (by decide)

/-- Witness for C3 (amended) at code "USD", count 5 and a concrete range. -/
theorem claim_C3_witness :
    (get_currency_rate (fun _ => Option.some (PyVal.dict [("rates", PyVal.list [])]))
        "USD" "" "a" =
      Except.ok ("No exchange rate data available for " ++ pyStrUpper "USD" ++ ".")) ∧
    ("No exchange rate data available for " ++ pyStrUpper "USD" ++ "." ≠
      "Unable to fetch current exchange rate for " ++ pyStrUpper "USD" ++ " from table A.") ∧
    (get_currency_rate_history (fun _ => Option.some (PyVal.dict [("rates", PyVal.list [])]))
        "USD" "2024-01-01" "2024-01-31" "a" =
      Except.ok ("No historical data available for " ++ pyStrUpper "USD" ++
        " in the specified date range.")) ∧
    ("No historical data available for " ++ pyStrUpper "USD" ++ " in the specified date range." ≠
      "Unable to fetch historical data for " ++ pyStrUpper "USD" ++ " from " ++ "2024-01-01" ++
        " to " ++ "2024-01-31" ++ ".") ∧
    (get_currency_rate_last_n (fun _ => Option.some (PyVal.dict [("rates", PyVal.list [])]))
        "USD" 5 "a" =
      Except.ok ("No rate data available for " ++ pyStrUpper "USD" ++ ".")) ∧
    ("No rate data available for " ++ pyStrUpper "USD" ++ "." ≠
      "Unable to fetch last " ++ toString (5 : Int) ++ " rates for " ++ pyStrUpper "USD" ++ ".") ∧
    (get_gold_price_history (fun _ => Option.some (PyVal.list [])) "2024-01-01" "2024-01-31" =
      Except.ok "No gold price data available for the specified date range.") ∧
    ("No gold price data available for the specified date range." ≠
      "Unable to fetch gold price history from " ++ "2024-01-01" ++ " to " ++ "2024-01-31" ++ ".") ∧
    (get_gold_price_last_n (fun _ => Option.some (PyVal.list [])) 5 =
      Except.ok "No gold price data available.") ∧
    ("No gold price data available." ≠
      "Unable to fetch last " ++ toString (5 : Int) ++ " gold prices.") :=
  claim_C3_amended_no_data_distinct "USD" "2024-01-01" "2024-01-31" 5 (by decide)

/-- C4 counterexample: the per-rate blocks of a table rendering do not
suffix the numeric fields with " PLN": on a one-rate table response whose
rate holds only `mid`, the full output is shown and contains no "PLN"
substring at all, unlike the single-rate rendering of
`get_currency_rate`. -/
theorem claim_C4_counterexample :
    get_exchange_table
        (fun _ => Option.some (PyVal.list [PyVal.dict [("table", PyVal.str "A"),
          ("no", PyVal.str "1/A/NBP/2024"), ("effectiveDate", PyVal.str "2024-01-02"),
          ("rates", PyVal.list [PyVal.dict [("currency", PyVal.str "euro"),
            ("code", PyVal.str "EUR"), ("mid", PyVal.int 4)]])]]))
        "" "a" =
      Except.ok "Table: A\nNumber: 1/A/NBP/2024\nEffective Date: 2024-01-02\n\nRates:\n\nCurrency: euro\nCode: EUR\nMid Rate: 4" ∧
    charListHasInfix "PLN".toList
      "Table: A\nNumber: 1/A/NBP/2024\nEffective Date: 2024-01-02\n\nRates:\n\nCurrency: euro\nCode: EUR\nMid Rate: 4".toList = false :=
  ⟨rfl, by decide⟩

/-- C4 as amended: for every non-empty table response,
`get_exchange_table` renders the header fields (table id, sequence
number, optional trading date, effective date) followed by one block per
embedded rate, each block produced by `format_rate`; `format_rate`
renders each present field among country, symbol, mid, bid, ask on its
own line and omits absent fields entirely (never as zero or null), but —
unlike the single-rate rendering — without any " PLN" suffix on the
numeric fields. -/
theorem claim_C4_amended_table_rendering (cv kv tv nv ev : PyVal)
    (country symbol mid bid ask trading : Option PyVal)
    (rs : List PyVal) (ss : List String)
    (hrs : mapME format_rate rs = Except.ok ss) :
    (format_rate (PyVal.dict ([("currency", cv), ("code", kv)] ++ optEntry "country" country ++
        optEntry "symbol" symbol ++ optEntry "mid" mid ++ optEntry "bid" bid ++
        optEntry "ask" ask)) =
      Except.ok (String.intercalate "\n"
        (["Currency: " ++ pyStr cv, "Code: " ++ pyStr kv] ++ optLine "Country: " country ++
          optLine "Symbol: " symbol ++ optLine "Mid Rate: " mid ++ optLine "Bid Rate: " bid ++
          optLine "Ask Rate: " ask))) ∧
    (get_exchange_table
        (fun _ => Option.some (PyVal.list [PyVal.dict ([("table", tv), ("no", nv)] ++
          optEntry "tradingDate" trading ++ [("effectiveDate", ev), ("rates", PyVal.list rs)])]))
        "" "a" =
      Except.ok (String.intercalate "\n"
        ((["Table: " ++ pyStr tv, "Number: " ++ pyStr nv] ++ optLine "Trading Date: " trading ++
          ["Effective Date: " ++ pyStr ev, "\nRates:"]) ++ ss.map (fun s => "\n" ++ s)))) := by
  constructor
  · rcases country with _ | c1 <;> rcases symbol with _ | s1 <;> rcases mid with _ | m1 <;>
      rcases bid with _ | b1 <;> rcases ask with _ | a1 <;> rfl
  · rcases trading with _ | tr
    · have hw : get_exchange_table
          (fun _ => Option.some (PyVal.list [PyVal.dict ([("table", tv), ("no", nv)] ++
            optEntry "tradingDate" Option.none ++
            [("effectiveDate", ev), ("rates", PyVal.list rs)])])) "" "a" =
          format_exchange_table (PyVal.dict [("table", tv), ("no", nv),
            ("effectiveDate", ev), ("rates", PyVal.list rs)]) := rfl
      rw [hw]
      simp [format_exchange_table, pyGet, pyContains, pyIter, List.lookup,
        mapME_newline rs ss hrs, optLine]
    · have hw : get_exchange_table
          (fun _ => Option.some (PyVal.list [PyVal.dict ([("table", tv), ("no", nv)] ++
            optEntry "tradingDate" (Option.some tr) ++
            [("effectiveDate", ev), ("rates", PyVal.list rs)])])) "" "a" =
          format_exchange_table (PyVal.dict [("table", tv), ("no", nv), ("tradingDate", tr),
            ("effectiveDate", ev), ("rates", PyVal.list rs)]) := rfl
      rw [hw]
      simp [format_exchange_table, pyGet, pyContains, pySubscript, pyIter, List.lookup,
        mapME_newline rs ss hrs, optLine]

/-- Witness for C4 (amended) on a one-rate table with only `mid` present. -/
theorem claim_C4_witness :
    (format_rate (PyVal.dict ([("currency", PyVal.str "euro"), ("code", PyVal.str "EUR")] ++
        optEntry "country" Option.none ++ optEntry "symbol" Option.none ++
        optEntry "mid" (Option.some (PyVal.int 4)) ++ optEntry "bid" Option.none ++
        optEntry "ask" Option.none)) =
      Except.ok (String.intercalate "\n"
        (["Currency: " ++ pyStr (PyVal.str "euro"), "Code: " ++ pyStr (PyVal.str "EUR")] ++
          optLine "Country: " Option.none ++ optLine "Symbol: " Option.none ++
          optLine "Mid Rate: " (Option.some (PyVal.int 4)) ++ optLine "Bid Rate: " Option.none ++
          optLine "Ask Rate: " Option.none))) ∧
    (get_exchange_table
        (fun _ => Option.some (PyVal.list [PyVal.dict ([("table", PyVal.str "A"),
          ("no", PyVal.str "1/A/NBP/2024")] ++ optEntry "tradingDate" Option.none ++
          [("effectiveDate", PyVal.str "2024-01-02"),
           ("rates", PyVal.list [PyVal.dict [("mid", PyVal.int 4)]])])]))
        "" "a" =
      Except.ok (String.intercalate "\n"
        ((["Table: " ++ pyStr (PyVal.str "A"), "Number: " ++ pyStr (PyVal.str "1/A/NBP/2024")] ++
          optLine "Trading Date: " Option.none ++
          ["Effective Date: " ++ pyStr (PyVal.str "2024-01-02"), "\nRates:"]) ++
          ["Currency: Unknown\nCode: Unknown\nMid Rate: 4"].map (fun s => "\n" ++ s)))) :=
  claim_C4_amended_table_rendering (PyVal.str "euro") (PyVal.str "EUR") (PyVal.str "A")
    (PyVal.str "1/A/NBP/2024") (PyVal.str "2024-01-02")
    Option.none Option.none (Option.some (PyVal.int 4)) Option.none Option.none Option.none
    [PyVal.dict [("mid", PyVal.int 4)]] ["Currency: Unknown\nCode: Unknown\nMid Rate: 4"] rfl

/-- C5: when the upstream fetch returns the absent-result sentinel, each
of the seven tools returns its tool-specific "unable to fetch" sentence,
and that sentence contains the queried identifiers applicable to the tool
(uppercased currency code, date, date range endpoints, or count). -/
theorem claim_C5_unable_to_fetch_sentences
    (code date table start_date end_date : String) (count : Int)
    (htab : (pyStrLower table == "a" || pyStrLower table == "b" || pyStrLower table == "c") = true)
    (hvd : validate_date date = Option.none)
    (hcount : (decide (count < 1) || decide (count > 255)) = false) :
    (get_currency_rate (fun _ => Option.none) code date table =
      Except.ok (if date != "" then
        "Unable to fetch exchange rate for " ++ pyStrUpper code ++ " on " ++ date ++
          ". The date may be a weekend, holiday, or outside the available data range."
      else
        "Unable to fetch current exchange rate for " ++ pyStrUpper code ++ " from table " ++
          pyStrUpper (pyStrLower table) ++ ".")) ∧
    strContains ("Unable to fetch exchange rate for " ++ pyStrUpper code ++ " on " ++ date ++
      ". The date may be a weekend, holiday, or outside the available data range.")
      (pyStrUpper code) ∧
    strContains ("Unable to fetch exchange rate for " ++ pyStrUpper code ++ " on " ++ date ++
      ". The date may be a weekend, holiday, or outside the available data range.") date ∧
    strContains ("Unable to fetch current exchange rate for " ++ pyStrUpper code ++
      " from table " ++ pyStrUpper (pyStrLower table) ++ ".") (pyStrUpper code) ∧
    (get_exchange_table (fun _ => Option.none) date table =
      Except.ok (if date != "" then
        "Unable to fetch exchange rate table " ++ pyStrUpper (pyStrLower table) ++ " for " ++
          date ++ ". The date may be a weekend, holiday, or outside the available data range."
      else
        "Unable to fetch current exchange rate table " ++ pyStrUpper (pyStrLower table) ++ ".")) ∧
    strContains ("Unable to fetch exchange rate table " ++ pyStrUpper (pyStrLower table) ++
      " for " ++ date ++
      ". The date may be a weekend, holiday, or outside the available data range.") date ∧
    strContains ("Unable to fetch current exchange rate table " ++
      pyStrUpper (pyStrLower table) ++ ".") (pyStrUpper (pyStrLower table)) ∧
    (get_currency_rate_history (fun _ => Option.none) code start_date end_date table =
      Except.ok ("Unable to fetch historical data for " ++ pyStrUpper code ++ " from " ++
        start_date ++ " to " ++ end_date ++ ".")) ∧
    strContains ("Unable to fetch historical data for " ++ pyStrUpper code ++ " from " ++
      start_date ++ " to " ++ end_date ++ ".") (pyStrUpper code) ∧
    strContains ("Unable to fetch historical data for " ++ pyStrUpper code ++ " from " ++
      start_date ++ " to " ++ end_date ++ ".") start_date ∧
    strContains ("Unable to fetch historical data for " ++ pyStrUpper code ++ " from " ++
      start_date ++ " to " ++ end_date ++ ".") end_date ∧
    (get_currency_rate_last_n (fun _ => Option.none) code count table =
      Except.ok ("Unable to fetch last " ++ toString count ++ " rates for " ++
        pyStrUpper code ++ ".")) ∧
    strContains ("Unable to fetch last " ++ toString count ++ " rates for " ++
      pyStrUpper code ++ ".") (toString count) ∧
    strContains ("Unable to fetch last " ++ toString count ++ " rates for " ++
      pyStrUpper code ++ ".") (pyStrUpper code) ∧
    (get_gold_price (fun _ => Option.none) date =
      Except.ok (if date != "" then
        "Unable to fetch gold price for " ++ date ++
          ". The date may be a weekend, holiday, or outside the available data range (data available from 2013-01-02)."
      else
        "Unable to fetch current gold price.")) ∧
    strContains ("Unable to fetch gold price for " ++ date ++
      ". The date may be a weekend, holiday, or outside the available data range (data available from 2013-01-02).")
      date ∧
    (get_gold_price_history (fun _ => Option.none) start_date end_date =
      Except.ok ("Unable to fetch gold price history from " ++ start_date ++ " to " ++
        end_date ++ ".")) ∧
    strContains ("Unable to fetch gold price history from " ++ start_date ++ " to " ++
      end_date ++ ".") start_date ∧
    strContains ("Unable to fetch gold price history from " ++ start_date ++ " to " ++
      end_date ++ ".") end_date ∧
    (get_gold_price_last_n (fun _ => Option.none) count =
      Except.ok ("Unable to fetch last " ++ toString count ++ " gold prices.")) ∧
    strContains ("Unable to fetch last " ++ toString count ++ " gold prices.")
      (toString count) := by
  refine ⟨?_, ?_, ?_, ?_, ?_, ?_, ?_, ?_, ?_, ?_, ?_, ?_, ?_, ?_, ?_, ?_, ?_, ?_, ?_, ?_, ?_⟩
  · simp [get_currency_rate, make_nbp_request, htab, hvd]
  · exact strContains_left _ _ _ (strContains_left _ _ _ (strContains_left _ _ _
      (strContains_right _ _ _ (strContains_refl _))))
  · exact strContains_left _ _ _ (strContains_right _ _ _ (strContains_refl _))
  · exact strContains_left _ _ _ (strContains_left _ _ _ (strContains_left _ _ _
      (strContains_right _ _ _ (strContains_refl _))))
  · simp only [get_exchange_table, make_nbp_request, htab, hvd]
    simp
    split <;> rfl
  · exact strContains_left _ _ _ (strContains_right _ _ _ (strContains_refl _))
  · exact strContains_left _ _ _ (strContains_right _ _ _ (strContains_refl _))
  · simp [get_currency_rate_history, make_nbp_request, htab]
  · exact strContains_left _ _ _ (strContains_left _ _ _ (strContains_left _ _ _
      (strContains_left _ _ _ (strContains_left _ _ _
        (strContains_right _ _ _ (strContains_refl _))))))
  · exact strContains_left _ _ _ (strContains_left _ _ _ (strContains_left _ _ _
      (strContains_right _ _ _ (strContains_refl _))))
  · exact strContains_left _ _ _ (strContains_right _ _ _ (strContains_refl _))
  · simp [get_currency_rate_last_n, make_nbp_request, htab, hcount]
  · exact strContains_left _ _ _ (strContains_left _ _ _ (strContains_left _ _ _
      (strContains_right _ _ _ (strContains_refl _))))
  · exact strContains_left _ _ _ (strContains_right _ _ _ (strContains_refl _))
  · simp only [get_gold_price, make_nbp_request, hvd]
    simp
    split <;> rfl
  · exact strContains_left _ _ _ (strContains_right _ _ _ (strContains_refl _))
  · simp [get_gold_price_history, make_nbp_request]
  · exact strContains_left _ _ _ (strContains_left _ _ _ (strContains_left _ _ _
      (strContains_right _ _ _ (strContains_refl _))))
  · exact strContains_left _ _ _ (strContains_right _ _ _ (strContains_refl _))
  · simp [get_gold_price_last_n, make_nbp_request, hcount]
  · exact strContains_left _ _ _ (strContains_right _ _ _ (strContains_refl _))

/-- Witness for C5 at code "usd", date "2024-01-15", table "a", range
2024-01-01..2024-01-31 and count 5. -/
theorem claim_C5_witness :
    (get_currency_rate (fun _ => Option.none) "usd" "2024-01-15" "a" =
      Except.ok (if "2024-01-15" != "" then
        "Unable to fetch exchange rate for " ++ pyStrUpper "usd" ++ " on " ++ "2024-01-15" ++
          ". The date may be a weekend, holiday, or outside the available data range."
      else
        "Unable to fetch current exchange rate for " ++ pyStrUpper "usd" ++ " from table " ++
          pyStrUpper (pyStrLower "a") ++ ".")) ∧
    strContains ("Unable to fetch exchange rate for " ++ pyStrUpper "usd" ++ " on " ++
      "2024-01-15" ++
      ". The date may be a weekend, holiday, or outside the available data range.")
      (pyStrUpper "usd") ∧
    strContains ("Unable to fetch exchange rate for " ++ pyStrUpper "usd" ++ " on " ++
      "2024-01-15" ++
      ". The date may be a weekend, holiday, or outside the available data range.")
      "2024-01-15" ∧
    strContains ("Unable to fetch current exchange rate for " ++ pyStrUpper "usd" ++
      " from table " ++ pyStrUpper (pyStrLower "a") ++ ".") (pyStrUpper "usd") ∧
    (get_exchange_table (fun _ => Option.none) "2024-01-15" "a" =
      Except.ok (if "2024-01-15" != "" then
        "Unable to fetch exchange rate table " ++ pyStrUpper (pyStrLower "a") ++ " for " ++
          "2024-01-15" ++
          ". The date may be a weekend, holiday, or outside the available data range."
      else
        "Unable to fetch current exchange rate table " ++ pyStrUpper (pyStrLower "a") ++ ".")) ∧
    strContains ("Unable to fetch exchange rate table " ++ pyStrUpper (pyStrLower "a") ++
      " for " ++ "2024-01-15" ++
      ". The date may be a weekend, holiday, or outside the available data range.")
      "2024-01-15" ∧
    strContains ("Unable to fetch current exchange rate table " ++
      pyStrUpper (pyStrLower "a") ++ ".") (pyStrUpper (pyStrLower "a")) ∧
    (get_currency_rate_history (fun _ => Option.none) "usd" "2024-01-01" "2024-01-31" "a" =
      Except.ok ("Unable to fetch historical data for " ++ pyStrUpper "usd" ++ " from " ++
        "2024-01-01" ++ " to " ++ "2024-01-31" ++ ".")) ∧
    strContains ("Unable to fetch historical data for " ++ pyStrUpper "usd" ++ " from " ++
      "2024-01-01" ++ " to " ++ "2024-01-31" ++ ".") (pyStrUpper "usd") ∧
    strContains ("Unable to fetch historical data for " ++ pyStrUpper "usd" ++ " from " ++
      "2024-01-01" ++ " to " ++ "2024-01-31" ++ ".") "2024-01-01" ∧
    strContains ("Unable to fetch historical data for " ++ pyStrUpper "usd" ++ " from " ++
      "2024-01-01" ++ " to " ++ "2024-01-31" ++ ".") "2024-01-31" ∧
    (get_currency_rate_last_n (fun _ => Option.none) "usd" 5 "a" =
      Except.ok ("Unable to fetch last " ++ toString (5 : Int) ++ " rates for " ++
        pyStrUpper "usd" ++ ".")) ∧
    strContains ("Unable to fetch last " ++ toString (5 : Int) ++ " rates for " ++
      pyStrUpper "usd" ++ ".") (toString (5 : Int)) ∧
    strContains ("Unable to fetch last " ++ toString (5 : Int) ++ " rates for " ++
      pyStrUpper "usd" ++ ".") (pyStrUpper "usd") ∧
    (get_gold_price (fun _ => Option.none) "2024-01-15" =
      Except.ok (if "2024-01-15" != "" then
        "Unable to fetch gold price for " ++ "2024-01-15" ++
          ". The date may be a weekend, holiday, or outside the available data range (data available from 2013-01-02)."
      else
        "Unable to fetch current gold price.")) ∧
    strContains ("Unable to fetch gold price for " ++ "2024-01-15" ++
      ". The date may be a weekend, holiday, or outside the available data range (data available from 2013-01-02).")
      "2024-01-15" ∧
    (get_gold_price_history (fun _ => Option.none) "2024-01-01" "2024-01-31" =
      Except.ok ("Unable to fetch gold price history from " ++ "2024-01-01" ++ " to " ++
        "2024-01-31" ++ ".")) ∧
    strContains ("Unable to fetch gold price history from " ++ "2024-01-01" ++ " to " ++
      "2024-01-31" ++ ".") "2024-01-01" ∧
    strContains ("Unable to fetch gold price history from " ++ "2024-01-01" ++ " to " ++
      "2024-01-31" ++ ".") "2024-01-31" ∧
    (get_gold_price_last_n (fun _ => Option.none) 5 =
      Except.ok ("Unable to fetch last " ++ toString (5 : Int) ++ " gold prices.")) ∧
    strContains ("Unable to fetch last " ++ toString (5 : Int) ++ " gold prices.")
      (toString (5 : Int)) :=
  claim_C5_unable_to_fetch_sentences "usd" "2024-01-15" "a" "2024-01-01" "2024-01-31" 5
    (by decide) (by decide) (by decide)

/-- C9: when the upstream response holds more than one record, the
single-result tools format only the first one: trailing records do not
change the output of `get_currency_rate`, `get_exchange_table` or
`get_gold_price`. -/
theorem claim_C9_first_record_only (tv cv kv r t g : PyVal)
    (rest restT restG : List PyVal) (code date table : String)
    (htab : (pyStrLower table == "a" || pyStrLower table == "b" || pyStrLower table == "c") = true)
    (hdate : validate_date date = Option.none) :
    get_currency_rate
        (fun _ => Option.some (PyVal.dict [("table", tv), ("currency", cv), ("code", kv),
          ("rates", PyVal.list (r :: rest))])) code date table =
      get_currency_rate
        (fun _ => Option.some (PyVal.dict [("table", tv), ("currency", cv), ("code", kv),
          ("rates", PyVal.list [r])])) code date table ∧
    get_exchange_table (fun _ => Option.some (PyVal.list (t :: restT))) date table =
      get_exchange_table (fun _ => Option.some (PyVal.list [t])) date table ∧
    get_gold_price (fun _ => Option.some (PyVal.list (g :: restG))) date =
      get_gold_price (fun _ => Option.some (PyVal.list [g])) date := by
  refine ⟨?_, ?_, ?_⟩ <;>
    simp [get_currency_rate, get_exchange_table, get_gold_price, htab, hdate,
      make_nbp_request, pyTruthy, pyGet, pyIndex, List.lookup]

/-- Witness for C9 on a two-record response. -/
theorem claim_C9_witness :
    get_currency_rate
        (fun _ => Option.some (PyVal.dict [("table", PyVal.str "a"), ("currency", PyVal.str "dolar"),
          ("code", PyVal.str "USD"),
          ("rates", PyVal.list [PyVal.dict [("mid", PyVal.int 4)], PyVal.dict [("mid", PyVal.int 5)]])]))
        "USD" "" "a" =
      get_currency_rate
        (fun _ => Option.some (PyVal.dict [("table", PyVal.str "a"), ("currency", PyVal.str "dolar"),
          ("code", PyVal.str "USD"),
          ("rates", PyVal.list [PyVal.dict [("mid", PyVal.int 4)]])]))
        "USD" "" "a" ∧
    get_exchange_table
        (fun _ => Option.some (PyVal.list [PyVal.dict [("rates", PyVal.list [])],
          PyVal.dict [("table", PyVal.str "B")]])) "" "a" =
      get_exchange_table
        (fun _ => Option.some (PyVal.list [PyVal.dict [("rates", PyVal.list [])]])) "" "a" ∧
    get_gold_price
        (fun _ => Option.some (PyVal.list [PyVal.dict [("cena", PyVal.int 245)],
          PyVal.dict [("cena", PyVal.int 999)]])) "" =
      get_gold_price
        (fun _ => Option.some (PyVal.list [PyVal.dict [("cena", PyVal.int 245)]])) "" :=
  claim_C9_first_record_only (PyVal.str "a") (PyVal.str "dolar") (PyVal.str "USD")
    (PyVal.dict [("mid", PyVal.int 4)]) (PyVal.dict [("rates", PyVal.list [])])
    (PyVal.dict [("cena", PyVal.int 245)])
    [PyVal.dict [("mid", PyVal.int 5)]] [PyVal.dict [("table", PyVal.str "B")]]
    [PyVal.dict [("cena", PyVal.int 999)]] "USD" "" "a" (by decide) rfl

end NBP
